import Mathlib

/-!
# ModelRouter: verification of the dispatcher core

A shallow embedding of the ModelRouter request-routing gateway
(`api/infra/redis_client.py`, `api/router.py`, `api/orchestrator.py`,
`api/providers/base.py`, `api/providers/openrouter_adapter.py`,
`api/schemas.py`, `api/config.py`) together with theorems settling the
spec claims about it.

Conventions of the embedding:
* The shared key/value store is an association list from string keys to
  entries (integer value, optional TTL).  Every value this code base writes
  is a positive counter or the presence flag `"1"`, so values are `Nat`.
* Async calls become explicit state passing; a provider adapter's behaviour
  for the one request under consideration is given as data (its stream
  either times out before the first chunk or produces a chunk list followed
  by a termination event).
* Wall-clock time is discrete (`Nat`); a timed stream records the elapsed
  time at which each chunk is received from the router.
* The upstream JSON decoder (`json.loads`) is an external library and is
  abstracted as a parameter producing the fields the adapter reads.
-/

namespace ModelRouter

/-! ## Shared state store (redis_client.py) -/

/-- An entry of the shared store: its integer value and its remaining
time-to-live in seconds (`none` = the key does not expire). -/
structure REntry where
  value : Nat
  ttl : Option Nat
deriving Repr, DecidableEq

/-- The shared key/value store, as an association list keyed by strings.
The first entry for a key shadows any later one. -/
abbrev RStore := List (String × REntry)

/-- Look up the entry stored under a key. -/
def rentry (s : RStore) (k : String) : Option REntry :=
  (s.find? (fun p => p.1 == k)).map (fun p => p.2)

/-- `GET key` — the stored value, `none` when the key is absent. -/
def rget (s : RStore) (k : String) : Option Nat :=
  (rentry s k).map (fun e => e.value)

/-- Store an entry under a key, replacing any previous entry. -/
def rset (s : RStore) (k : String) (e : REntry) : RStore :=
  (k, e) :: s.filter (fun p => p.1 != k)

/-- `SETEX key seconds value`. -/
def rsetex (s : RStore) (k : String) (seconds : Nat) (v : Nat) : RStore :=
  rset s k ⟨v, some seconds⟩

/-- `INCR key` — atomic increment, creating the key with value 1 when
absent; the TTL of an existing key is preserved.  Returns the new value. -/
def rincr (s : RStore) (k : String) : Nat × RStore :=
  match rentry s k with
  | none => (1, rset s k ⟨1, none⟩)
  | some e => (e.value + 1, rset s k ⟨e.value + 1, e.ttl⟩)

/-- `EXPIRE key seconds` — refresh the TTL of an existing key. -/
def rexpire (s : RStore) (k : String) (seconds : Nat) : RStore :=
  match rentry s k with
  | none => s
  | some e => rset s k ⟨e.value, some seconds⟩

/-- `DEL key`. -/
def rdel (s : RStore) (k : String) : RStore :=
  s.filter (fun p => p.1 != k)

/-- Key of the temporary blacklist flag of a provider. -/
def blacklistKey (provider : String) : String := "blacklist:" ++ provider

/-- Key of the consecutive-failure counter of a provider. -/
def failuresKey (provider : String) : String := "failures:" ++ provider

/-- Key of the fixed-window rate-limit counter of an identifier. -/
def ratelimitKey (identifier : String) : String := "ratelimit:" ++ identifier

/-- `RedisClient.is_provider_blacklisted`: true iff the blacklist key exists. -/
def is_provider_blacklisted (s : RStore) (provider : String) : Bool :=
  (rget s (blacklistKey provider)).isSome

/-- `RedisClient.blacklist_provider`: `SETEX blacklist:{p} seconds "1"`. -/
def blacklist_provider (s : RStore) (provider : String) (seconds : Nat) : RStore :=
  rsetex s (blacklistKey provider) seconds 1

/-- `RedisClient.increment_failure_count`: `INCR failures:{p}` then
`EXPIRE failures:{p} 300`; returns the new count. -/
def increment_failure_count (s : RStore) (provider : String) : Nat × RStore :=
  let (count, s1) := rincr s (failuresKey provider)
  (count, rexpire s1 (failuresKey provider) 300)

/-- `RedisClient.reset_failure_count`: `DEL failures:{p}`. -/
def reset_failure_count (s : RStore) (provider : String) : RStore :=
  rdel s (failuresKey provider)

/-- `RedisClient.check_rate_limit`: fixed-window algorithm on
`ratelimit:{identifier}`.  Returns `((allowed, remaining), store)`. -/
def check_rate_limit (s : RStore) (identifier : String) (max_requests : Int)
    (window_seconds : Nat) : (Bool × Int) × RStore :=
  let key := ratelimitKey identifier
  match rget s key with
  | none => ((true, max_requests - 1), rsetex s key window_seconds 1)
  | some count =>
    if max_requests ≤ (count : Int) then ((false, 0), s)
    else ((true, max_requests - count - 1), (rincr s key).2)

/-- Modelled from the spec: `RedisClient.check_provider_rate_limit` is not
present in the source tree (only the Router call site in
`Router._check_provider_rate_limit` and the test doubles declare it).  The
spec says it is "the same algorithm, keyed by provider (the request_id is
advisory, used only in logs; the effective key is per-provider)". -/
def check_provider_rate_limit (s : RStore) (provider_name : String)
    (user_id : String) (max_requests : Int) (window_seconds : Nat) :
    (Bool × Int) × RStore :=
  check_rate_limit s provider_name max_requests window_seconds

/-! ## Domain model (schemas.py) -/

/-- `ProviderError` (schemas.py): the tagged error carried through the core.
The `original_error` slot holds a raw exception used only for logging and is
omitted. -/
structure ProviderError where
  provider : String
  code : String
  message : String
  retriable : Bool
deriving Repr, DecidableEq

/-- `ChatResponse` (schemas.py).  `provider_meta` is an open bag of
provider-reported values, kept opaque here. -/
structure ChatResponse where
  text : String
  provider : String
  model : Option String := none
  provider_meta : List (String × String) := []
deriving Repr, DecidableEq

/-- `Message` (schemas.py). -/
structure Message where
  role : String
  content : String
deriving Repr, DecidableEq

/-- `ChatRequest` (schemas.py).  `metadata` is an opaque bag never read by the
core and is omitted. -/
structure ChatRequest where
  messages : List Message
  max_tokens : Int := 512
  temperature : Rat := 0
  stream : Bool := false
  model : Option String := none
  provider : Option String := none
deriving Repr, DecidableEq

/-- The `validate_role` field validator of `Message`: the role must be one of
`user`, `assistant`, `system`. -/
def validate_role (v : String) : Bool :=
  ["user", "assistant", "system"].contains v

/-- Pydantic construction of a `Message` from raw fields: the role validator
runs; the content field has no constraint beyond being present. -/
def mkMessage (role : String) (content : String) : Except String Message :=
  if validate_role role then Except.ok ⟨role, content⟩
  else Except.error "El rol debe ser user, assistant o system"

/-- The `validate_messages` field validator of `ChatRequest`: the message list
must be non-empty. -/
def validate_messages (v : List Message) : Except String (List Message) :=
  if v.isEmpty then Except.error "La lista de mensajes no puede estar vacía"
  else Except.ok v

/-- Pydantic validation of the raw message list: each element is constructed
with `mkMessage`, the first failure aborting. -/
def mkMessages : List (String × String) → Except String (List Message)
  | [] => Except.ok []
  | m :: rest =>
    match mkMessage m.1 m.2, mkMessages rest with
    | Except.ok msg, Except.ok msgs => Except.ok (msg :: msgs)
    | Except.error e, _ => Except.error e
    | Except.ok _, Except.error e => Except.error e

/-- Pydantic construction of a `ChatRequest` from raw inputs: each message is
validated, `max_tokens` must lie in `[1, 4096]` (`ge=1, le=4096`),
`temperature` must lie in `[0, 2]` (`ge=0.0, le=2.0`), then the message-list
validator runs. -/
def mkChatRequest (msgs : List (String × String)) (max_tokens : Int)
    (temperature : Rat) (streamFlag : Bool) (model : Option String)
    (provider : Option String) : Except String ChatRequest :=
  match mkMessages msgs with
  | Except.error e => Except.error e
  | Except.ok messages =>
    if ¬ (1 ≤ max_tokens ∧ max_tokens ≤ 4096) then
      Except.error "max_tokens fuera de rango"
    else if ¬ (0 ≤ temperature ∧ temperature ≤ 2) then
      Except.error "temperature fuera de rango"
    else
      match validate_messages messages with
      | Except.error e => Except.error e
      | Except.ok messages =>
        Except.ok ⟨messages, max_tokens, temperature, streamFlag, model, provider⟩

/-! ## Configuration (config.py) -/

/-- The configuration fields consulted by the Router. -/
structure Settings where
  rate_limit_requests_per_minute : Int := 60
  groq_rate_limit : Int := 30
  openrouter_rate_limit : Int := 20
  ollama_rate_limit : Int := 100
deriving Repr, DecidableEq

/-- `Settings.get_provider_rate_limit`: the per-provider limit when configured,
else the global one.  The source uses `provider_limits.get(name) or global`,
so a per-provider value of 0 (falsy) also falls back to the global limit. -/
def Settings.get_provider_rate_limit (st : Settings) (provider_name : String) : Int :=
  let lim : Option Int :=
    if provider_name = "groq" then some st.groq_rate_limit
    else if provider_name = "openrouter" then some st.openrouter_rate_limit
    else if provider_name = "ollama" then some st.ollama_rate_limit
    else none
  match lim with
  | some l => if l = 0 then st.rate_limit_requests_per_minute else l
  | none => st.rate_limit_requests_per_minute

/-! ## Router (router.py)

A provider adapter's behaviour for the one request being routed is given as
data.  For `stream`, either the first chunk does not arrive within
`first_chunk_timeout` (`firstChunkTimeout`), or the stream produces a list of
chunks and then terminates (normally, with a `ProviderError`, or with some
other exception).  An empty chunk list with normal termination is the
"stream ends with zero elements" case (`StopAsyncIteration` on the first
`__anext__`); an empty chunk list with an error is a failure before the first
element. -/

/-- Outcome of one `provider.generate(request)` call. -/
inductive GenBehavior where
  | ok (response : ChatResponse)
  | provErr (e : ProviderError)
  | otherErr (message : String)
deriving Repr, DecidableEq

/-- How a provider stream terminates after its chunks. -/
inductive StreamTerm where
  | normal
  | provErr (e : ProviderError)
  | otherErr (message : String)
deriving Repr, DecidableEq

/-- Behaviour of one `provider.stream(request)` call. -/
inductive StreamBehavior where
  | firstChunkTimeout
  | chunks (xs : List String) (term : StreamTerm)
deriving Repr, DecidableEq

/-- A provider adapter, as seen by the Router for one request: its name and
the behaviour of its two operations. -/
structure Provider where
  name : String
  gen : GenBehavior
  stream : StreamBehavior
deriving Repr, DecidableEq

/-- The Router's construction parameters (providers are passed separately). -/
structure RouterCfg where
  settings : Settings
  backoff_base : Nat := 5
  backoff_max : Nat := 300
deriving Repr, DecidableEq

/-- `Router._mark_provider_failed`: increment the failure counter to `n` and
blacklist the provider for `min(backoff_base * 2^(n-1), backoff_max)` seconds.
`increment_failure_count` always returns a count ≥ 1, so the `Nat`
subtraction in the exponent agrees with the source's `failure_count - 1`. -/
def mark_provider_failed (cfg : RouterCfg) (s : RStore) (provider : String) : RStore :=
  let (failure_count, s1) := increment_failure_count s provider
  let backoff_seconds := min (cfg.backoff_base * 2 ^ (failure_count - 1)) cfg.backoff_max
  blacklist_provider s1 provider backoff_seconds

/-- `Router._mark_provider_success`: reset the failure counter. -/
def mark_provider_success (s : RStore) (provider : String) : RStore :=
  reset_failure_count s provider

/-- `Router._check_provider_rate_limit`: ask the store's per-provider
fixed-window check; on rejection produce the retriable `RATE_LIMIT` error the
loop remembers, otherwise nothing. -/
def router_check_provider_rate_limit (cfg : RouterCfg) (s : RStore)
    (p : Provider) (request_id : String) : Option ProviderError × RStore :=
  let provider_rate_limit := cfg.settings.get_provider_rate_limit p.name
  let r := check_provider_rate_limit s p.name request_id provider_rate_limit 60
  if r.1.1 then (none, r.2)
  else
    (some ⟨p.name, "RATE_LIMIT",
      "Rate limit de " ++ toString provider_rate_limit ++ " req/min excedido",
      true⟩, r.2)

/-- The terminal error raised after the candidate loop is exhausted. -/
def all_providers_failed_error (last_error : Option ProviderError) : ProviderError :=
  let msg :=
    match last_error with
    | some e => "Todos los proveedores fallaron. Último error: " ++ e.message
    | none => "Todos los proveedores fallaron"
  ⟨"router", "ALL_PROVIDERS_FAILED", msg, false⟩

/-- The wrapper the loops build around a non-`ProviderError` exception. -/
def unknown_wrap (provider : String) (message : String) : ProviderError :=
  ⟨provider, "UNKNOWN_ERROR", message, false⟩

/-- Result of `Router.choose_and_generate`. -/
inductive GenResult where
  | ok (r : ChatResponse)
  | err (e : ProviderError)
deriving Repr, DecidableEq

/-- The candidate loop of `Router.choose_and_generate`: skip blacklisted
providers, skip rate-limited ones remembering a `RATE_LIMIT` error, attempt
the rest; a success resets the failure counter and returns, a retriable
`ProviderError` marks the provider failed, a non-retriable one leaves the
counters alone, any other fault is wrapped as `UNKNOWN_ERROR`; exhaustion
fails with `ALL_PROVIDERS_FAILED`. -/
def choose_and_generate_loop (cfg : RouterCfg) (request_id : String) :
    List Provider → RStore → Option ProviderError → GenResult × RStore
  | [], s, last_error => (.err (all_providers_failed_error last_error), s)
  | p :: rest, s, last_error =>
    if is_provider_blacklisted s p.name then
      choose_and_generate_loop cfg request_id rest s last_error
    else
      match router_check_provider_rate_limit cfg s p request_id with
      | (some e, s1) => choose_and_generate_loop cfg request_id rest s1 (some e)
      | (none, s1) =>
        match p.gen with
        | .ok response => (.ok response, mark_provider_success s1 p.name)
        | .provErr e =>
          let s2 := if e.retriable then mark_provider_failed cfg s1 p.name else s1
          choose_and_generate_loop cfg request_id rest s2 (some e)
        | .otherErr m =>
          choose_and_generate_loop cfg request_id rest s1 (some (unknown_wrap p.name m))

/-- `Router.choose_and_generate`.  The source never consults the request for
candidate selection; the request parameter is carried for fidelity. -/
def choose_and_generate (cfg : RouterCfg) (providers : List Provider)
    (request : ChatRequest) (request_id : String) (s : RStore) : GenResult × RStore :=
  choose_and_generate_loop cfg request_id providers s none

/-- Observable events of one `choose_and_stream` call: a provider attempt
beginning, and a chunk yielded downstream. -/
inductive REvent where
  | invoked (provider : String)
  | yielded (chunk : String)
deriving Repr, DecidableEq

/-- How a `choose_and_stream` call ends. -/
inductive StreamResult where
  | ok
  | err (e : ProviderError)
deriving Repr, DecidableEq

/-- Prefix an event trace onto a loop outcome. -/
def prependEvents (evs : List REvent) :
    List REvent × StreamResult × RStore → List REvent × StreamResult × RStore
  | (evs2, r, s) => (evs ++ evs2, r, s)

/-- The candidate loop of `Router.choose_and_stream`.  Gate checks as in the
unary loop; then the stream is started and the first chunk awaited with
`first_chunk_timeout`.  No first chunk (timeout or empty stream) marks the
provider failed and moves on.  A first chunk commits: every chunk is yielded;
normal end resets the failure counter.  A `ProviderError` raised at any point
of the attempt — before or after the first chunk — is caught by the same
handler: it is remembered, the provider is marked failed when retriable, and
the loop continues with the next candidate.  Any other fault is wrapped as
`UNKNOWN_ERROR` and the loop continues. -/
def choose_and_stream_loop (cfg : RouterCfg) (request_id : String) :
    List Provider → RStore → Option ProviderError →
    List REvent × StreamResult × RStore
  | [], s, last_error => ([], .err (all_providers_failed_error last_error), s)
  | p :: rest, s, last_error =>
    if is_provider_blacklisted s p.name then
      choose_and_stream_loop cfg request_id rest s last_error
    else
      match router_check_provider_rate_limit cfg s p request_id with
      | (some e, s1) => choose_and_stream_loop cfg request_id rest s1 (some e)
      | (none, s1) =>
        match p.stream with
        | .firstChunkTimeout =>
          prependEvents [.invoked p.name]
            (choose_and_stream_loop cfg request_id rest
              (mark_provider_failed cfg s1 p.name) last_error)
        | .chunks [] .normal =>
          prependEvents [.invoked p.name]
            (choose_and_stream_loop cfg request_id rest
              (mark_provider_failed cfg s1 p.name) last_error)
        | .chunks [] (.provErr e) =>
          let s2 := if e.retriable then mark_provider_failed cfg s1 p.name else s1
          prependEvents [.invoked p.name]
            (choose_and_stream_loop cfg request_id rest s2 (some e))
        | .chunks [] (.otherErr m) =>
          prependEvents [.invoked p.name]
            (choose_and_stream_loop cfg request_id rest s1
              (some (unknown_wrap p.name m)))
        | .chunks (x :: xs) term =>
          let evs := REvent.invoked p.name :: (x :: xs).map REvent.yielded
          match term with
          | .normal => (evs, .ok, mark_provider_success s1 p.name)
          | .provErr e =>
            let s2 := if e.retriable then mark_provider_failed cfg s1 p.name else s1
            prependEvents evs
              (choose_and_stream_loop cfg request_id rest s2 (some e))
          | .otherErr m =>
            prependEvents evs
              (choose_and_stream_loop cfg request_id rest s1
                (some (unknown_wrap p.name m)))

/-- `Router.choose_and_stream`.  The source never consults the request for
candidate selection; the request parameter is carried for fidelity. -/
def choose_and_stream (cfg : RouterCfg) (providers : List Provider)
    (request : ChatRequest) (request_id : String) (s : RStore) :
    List REvent × StreamResult × RStore :=
  choose_and_stream_loop cfg request_id providers s none

/-! ## Orchestrator (orchestrator.py)

Entry time is normalised to 0, so event times are elapsed seconds.  The
inner stream delivered by the Router is a list of `(elapsed, chunk)` receipt
events followed by a termination at `endTime` (normal end or a
`ProviderError` propagating through). -/

/-- How the inner router stream terminates. -/
inductive StreamEnd where
  | normal
  | provErr (e : ProviderError)
deriving Repr, DecidableEq

/-- The `GLOBAL_TIMEOUT` error the Orchestrator raises. -/
def global_timeout_error (max_operation_timeout : Nat) : ProviderError :=
  ⟨"orchestrator", "GLOBAL_TIMEOUT",
    "Operación excedió timeout global de " ++ toString max_operation_timeout ++ "s",
    false⟩

/-- `Orchestrator.stream_response`: for each chunk received from the router,
check `elapsed > max_operation_timeout` before yielding it; on expiry raise
`GLOBAL_TIMEOUT`, abandoning the rest.  A `ProviderError` ending the inner
stream passes through.  Returns the chunks yielded to the caller and the
terminal error, if any. -/
def stream_response (max_operation_timeout : Nat) :
    List (Nat × String) → StreamEnd → List String × Option ProviderError
  | [], e =>
    ([], match e with | .normal => none | .provErr pe => some pe)
  | (t, c) :: rest, e =>
    if max_operation_timeout < t then
      ([], some (global_timeout_error max_operation_timeout))
    else
      let r := stream_response max_operation_timeout rest e
      (c :: r.1, r.2)

/-- `Orchestrator.generate_response`: `asyncio.wait_for` races the unary call
against the global deadline; completion at elapsed time `t` past the deadline
becomes `GLOBAL_TIMEOUT`, otherwise the result (a `ProviderError` passes
through). -/
def generate_response (max_operation_timeout : Nat) (t : Nat)
    (res : Except ProviderError ChatResponse) : Except ProviderError ChatResponse :=
  if max_operation_timeout < t then
    Except.error (global_timeout_error max_operation_timeout)
  else res

/-- A timed trace of the inner router stream: chunk receipt events with their
elapsed times, the elapsed time at which the stream terminates, and how it
terminates.  `stream_response` never reads the clock at termination, so
`endTime` does not influence it — which is what claim C5 is about. -/
structure TimedStream where
  events : List (Nat × String)
  endTime : Nat
  endKind : StreamEnd
deriving Repr, DecidableEq

/-- `Orchestrator.stream_response` on a timed trace. -/
def stream_response_tr (max_operation_timeout : Nat) (tr : TimedStream) :
    List String × Option ProviderError :=
  stream_response max_operation_timeout tr.events tr.endKind

/-! ## Adapter error mapping (providers/base.py) -/

/-- `ProviderAdapter._handle_http_error`: the shared HTTP-status classification
policy. -/
def handle_http_error (pname : String) (status_code : Nat) (message : String) :
    ProviderError :=
  let classified :=
    if status_code = 429 then ("RATE_LIMIT", true)
    else if 500 ≤ status_code then ("SERVER_ERROR", true)
    else if status_code = 408 then ("TIMEOUT", true)
    else if status_code = 401 then ("UNAUTHORIZED", false)
    else if status_code = 403 then ("FORBIDDEN", false)
    else if status_code = 400 then ("BAD_REQUEST", false)
    else ("HTTP_" ++ toString status_code, false)
  ⟨pname, classified.1, message, classified.2⟩

/-- The spec's closed set of error codes. -/
def closed_error_codes : List String :=
  ["RATE_LIMIT", "SERVER_ERROR", "TIMEOUT", "UNAUTHORIZED", "FORBIDDEN",
   "BAD_REQUEST", "INVALID_RESPONSE", "INVALID_PROVIDER",
   "PROVIDER_UNAVAILABLE", "ALL_PROVIDERS_FAILED", "GLOBAL_TIMEOUT",
   "UNKNOWN_ERROR"]

/-! ## OpenAI-style SSE stream parsing (providers/openrouter_adapter.py)

The adapter iterates over network reads (`stream_post` chunks) and splits
each into lines; a network read is modelled as its list of lines.  The JSON
decoder is abstracted as `parse`, returning the fields the adapter reads
(`choices[0].delta.content`) or `none` on malformed JSON. -/

/-- The `delta` object of a choice: its optional `content` field. -/
structure DeltaObj where
  content : Option String
deriving Repr, DecidableEq

/-- One element of `choices`: its optional `delta` object. -/
structure ChoiceObj where
  delta : Option DeltaObj
deriving Repr, DecidableEq

/-- A decoded SSE data payload: its optional `choices` array. -/
structure SseData where
  choices : Option (List ChoiceObj)
deriving Repr, DecidableEq

/-- The content extraction of the adapter: when `choices` is present and
non-empty, read `choices[0].get("delta", {}).get("content", "")` and keep it
only when non-empty. -/
def sse_delta_content (data : SseData) : Option String :=
  match data.choices with
  | some (c :: _) =>
    let delta := c.delta.getD ⟨none⟩
    let content := delta.content.getD ""
    if content = "" then none else some content
  | _ => none

/-- Python's `str.startswith`, over the sequence of characters (Python
strings are code-point sequences, so `List Char` is their model). -/
def str_startswith (s pre : String) : Bool :=
  pre.data.isPrefixOf s.data

/-- Python's `str.strip`: remove leading and trailing whitespace. -/
def str_strip (s : String) : String :=
  ⟨((s.data.dropWhile Char.isWhitespace).reverse.dropWhile Char.isWhitespace).reverse⟩

/-- Python's `s[n:]` slice: drop the first `n` characters. -/
def str_drop (s : String) (n : Nat) : String :=
  ⟨s.data.drop n⟩

/-- The inner line loop of `OpenRouterAdapter.stream` over one network read:
strip each line; skip blanks and `:`-comments; for `data: `-prefixed lines,
a `[DONE]` payload breaks out of this loop, malformed JSON is skipped, and a
decoded payload contributes its non-empty delta content; other lines are
ignored. -/
def openrouter_process_lines (parse : String → Option SseData) :
    List String → List String
  | [] => []
  | line :: rest =>
    let l := str_strip line
    if l = "" || str_startswith l ":" then openrouter_process_lines parse rest
    else if str_startswith l "data: " then
      let data_str := str_drop l 6
      if data_str = "[DONE]" then []
      else
        match parse data_str with
        | none => openrouter_process_lines parse rest
        | some data =>
          match sse_delta_content data with
          | some c => c :: openrouter_process_lines parse rest
          | none => openrouter_process_lines parse rest
    else openrouter_process_lines parse rest

/-- `OpenRouterAdapter.stream`: the outer loop over network reads, each
processed by the inner line loop.  The `break` on `[DONE]` leaves only the
inner loop, so the outer loop continues with the next network read. -/
def openrouter_stream (parse : String → Option SseData) :
    List (List String) → List String
  | [] => []
  | chunk :: rest =>
    openrouter_process_lines parse chunk ++ openrouter_stream parse rest

/-! ## Spec-side definitions

These follow the spec's words, for comparison with the source-derived
definitions above. -/

/-- Whether a stripped line is a `data: [DONE]` terminator, per the spec's
framing rules. -/
def is_done_line (line : String) : Bool :=
  str_startswith (str_strip line) "data: " && str_drop (str_strip line) 6 == "[DONE]"

/-- The content a single SSE line contributes, per the spec: blanks and
`:`-comments are ignored, a `data: `-prefixed line is decoded and its
non-empty `choices[0].delta.content` kept, malformed JSON and other lines
are skipped. -/
def spec_line_content (parse : String → Option SseData) (line : String) :
    Option String :=
  let l := str_strip line
  if l = "" || str_startswith l ":" then none
  else if str_startswith l "data: " then
    match parse (str_drop l 6) with
    | none => none
    | some data => sse_delta_content data
  else none

/-- The spec's description of SSE stream parsing over a sequence of lines:
process the lines in upstream order; the first `[DONE]` payload ends the
stream; every other line contributes its non-empty
`choices[0].delta.content`, or nothing. -/
def spec_sse_extract (parse : String → Option SseData) :
    List String → List String
  | [] => []
  | line :: rest =>
    if is_done_line line then []
    else
      match spec_line_content parse line with
      | some c => c :: spec_sse_extract parse rest
      | none => spec_sse_extract parse rest

/-- The spec's reading of P6 for a stream: the wall clock exceeds the global
deadline before the operation reaches terminal success exactly when the
operation is still running at the deadline, i.e. it ends (either way) only
after `max_operation_timeout`. -/
def spec_exceeds_deadline (max_operation_timeout : Nat) (endTime : Nat) : Prop :=
  max_operation_timeout < endTime

/-- The spec's ingress-validation predicate on raw request inputs: non-empty
message list, every role in the enumerated set, every content non-empty, and
the `max_tokens` / `temperature` bounds. -/
def spec_ingress_accepts (msgs : List (String × String)) (max_tokens : Int)
    (temperature : Rat) : Prop :=
  msgs ≠ [] ∧ (∀ m ∈ msgs, validate_role m.1 = true) ∧
    (∀ m ∈ msgs, m.2 ≠ "") ∧
    1 ≤ max_tokens ∧ max_tokens ≤ 4096 ∧ 0 ≤ temperature ∧ temperature ≤ 2

/-- The spec's fixed-window rate-limit algorithm, in its own words: if the
key is absent, create it with value 1 and TTL = window and allow with
`max - 1` remaining; if the stored count has reached the maximum, reject
without mutation; otherwise increment and allow with `max - count - 1`
remaining. -/
def spec_fixed_window (s : RStore) (key : String) (max_requests : Int)
    (window_seconds : Nat) : (Bool × Int) × RStore :=
  match rget s key with
  | none => ((true, max_requests - 1), rset s key ⟨1, some window_seconds⟩)
  | some count =>
    if (count : Int) < max_requests then
      ((true, max_requests - count - 1), (rincr s key).2)
    else ((false, 0), s)

/-! ## Concrete fixtures

Test inputs used by the concrete evaluation theorems, counterexamples and
witnesses below. -/

/-- Default settings (config.py defaults). -/
def settings0 : Settings := {}

/-- A router with default settings, `backoff_base = 5`, `backoff_max = 300`. -/
def cfg0 : RouterCfg := ⟨settings0, 5, 300⟩

/-- A minimal valid request. -/
def req0 : ChatRequest := ⟨[⟨"user", "Hola"⟩], 100, 0, false, none, none⟩

/-- The same request pinned to a provider name no adapter has. -/
def req_ghost : ChatRequest := ⟨[⟨"user", "Hola"⟩], 100, 0, false, none, some "noexiste"⟩

/-- A retriable upstream timeout error attributed to `groq`. -/
def e_timeout : ProviderError := ⟨"groq", "TIMEOUT", "upstream timeout", true⟩

/-- A provider whose stream yields one chunk and then fails retriably. -/
def pA : Provider := ⟨"groq", .otherErr "unused", .chunks ["foo"] (.provErr e_timeout)⟩

/-- A healthy fallback provider. -/
def pB : Provider := ⟨"openrouter", .otherErr "unused", .chunks ["ok"] .normal⟩

/-- A healthy provider streaming three chunks and answering unary calls. -/
def pG : Provider :=
  ⟨"groq", .ok ⟨"Test response", "groq", none, []⟩,
    .chunks ["chunk0", "chunk1", "chunk2"] .normal⟩

/-- A non-retriable error attributed to `groq`. -/
def e_bad : ProviderError := ⟨"groq", "BAD_REQUEST", "bad", false⟩

/-- A provider failing non-retriably both ways. -/
def p_bad : Provider := ⟨"groq", .provErr e_bad, .chunks [] (.provErr e_bad)⟩

/-- The store after the rate gate admits `groq` starting from the empty
store. -/
def s_gate : RStore := [("ratelimit:groq", ⟨1, some 60⟩)]

/-- A timed trace that ends successfully at elapsed 200 with its only chunk
at elapsed 0. -/
def tr0 : TimedStream := ⟨[(0, "a")], 200, .normal⟩

/-- A timed trace whose second chunk arrives past a 120-second deadline. -/
def tr1 : TimedStream := ⟨[(0, "a"), (130, "b")], 130, .normal⟩

/-- A decoded SSE payload whose first choice carries the given content. -/
def sample_delta (c : String) : SseData := ⟨some [⟨some ⟨some c⟩⟩]⟩

/-- A concrete stand-in for the JSON decoder: the payload `"ok"` decodes to a
chunk with content `"x"`, everything else is malformed. -/
def sample_parse : String → Option SseData :=
  fun s => if s = "ok" then some (sample_delta "x") else none

/-! ## Store lemmas -/

theorem data_append (s t : String) : (s ++ t).data = s.data ++ t.data := by
  rcases s with ⟨d1⟩
  rcases t with ⟨d2⟩
  rfl

/-- Strings built from prefixes with distinct head characters differ. -/
theorem key_prefix_ne {c d : Char} {l1 l2 : List Char} (s t a b : String)
    (hcd : c ≠ d) (hs : s.data = c :: l1) (ht : t.data = d :: l2) :
    s ++ a ≠ t ++ b := by
  intro h
  have h2 := congrArg String.data h
  rw [data_append, data_append, hs, ht, List.cons_append, List.cons_append] at h2
  injection h2 with h3 _
  exact hcd h3

theorem failuresKey_ne_blacklistKey (p q : String) :
    failuresKey p ≠ blacklistKey q :=
  key_prefix_ne "failures:" "blacklist:" p q (by decide) rfl rfl

theorem failuresKey_ne_ratelimitKey (p q : String) :
    failuresKey p ≠ ratelimitKey q :=
  key_prefix_ne "failures:" "ratelimit:" p q (by decide) rfl rfl

theorem blacklistKey_ne_ratelimitKey (p q : String) :
    blacklistKey p ≠ ratelimitKey q :=
  key_prefix_ne "blacklist:" "ratelimit:" p q (by decide) rfl rfl

theorem rentry_rset_self (s : RStore) (k : String) (e : REntry) :
    rentry (rset s k e) k = some e := by
  simp [rentry, rset, List.find?]

theorem find?_filter_ne (s : RStore) (k k' : String) (h : k ≠ k') :
    ((s.filter (fun p => p.1 != k')).find? (fun p => p.1 == k))
      = s.find? (fun p => p.1 == k) := by
  induction s with
  | nil => rfl
  | cons hd tl ih =>
    rcases hd with ⟨a, v⟩
    by_cases hak : a = k
    · subst hak
      rw [List.filter_cons, if_pos (bne_iff_ne.mpr h)]
      rw [List.find?_cons_of_pos _ (by simp), List.find?_cons_of_pos _ (by simp)]
    · by_cases hak' : a = k'
      · subst hak'
        rw [List.filter_cons, if_neg (by simp)]
        rw [ih, List.find?_cons_of_neg _ (by simp [hak])]
      · rw [List.filter_cons, if_pos (bne_iff_ne.mpr hak')]
        rw [List.find?_cons_of_neg _ (by simp [hak]),
          List.find?_cons_of_neg _ (by simp [hak]), ih]

theorem rentry_rset_ne (s : RStore) (k k' : String) (e : REntry) (h : k ≠ k') :
    rentry (rset s k' e) k = rentry s k := by
  have h1 : (k' == k) = false := by
    simp
    exact fun he => h he.symm
  simp [rentry, rset, List.find?, h1, find?_filter_ne s k k' h]

theorem rentry_rdel_ne (s : RStore) (k k' : String) (h : k ≠ k') :
    rentry (rdel s k') k = rentry s k := by
  simp [rentry, rdel, find?_filter_ne s k k' h]

theorem rget_rset_self (s : RStore) (k : String) (e : REntry) :
    rget (rset s k e) k = some e.value := by
  simp [rget, rentry_rset_self]

theorem rget_rset_ne (s : RStore) (k k' : String) (e : REntry) (h : k ≠ k') :
    rget (rset s k' e) k = rget s k := by
  simp [rget, rentry_rset_ne s k k' e h]

theorem rentry_rexpire_self (s : RStore) (k : String) (secs : Nat) :
    rentry (rexpire s k secs) k
      = (rentry s k).map (fun e => ⟨e.value, some secs⟩) := by
  unfold rexpire
  rcases h : rentry s k with _ | e
  · simp [h]
  · simp [h, rentry_rset_self]

theorem rentry_rexpire_ne (s : RStore) (k k' : String) (secs : Nat)
    (h : k' ≠ k) : rentry (rexpire s k secs) k' = rentry s k' := by
  unfold rexpire
  rcases hE : rentry s k with _ | e
  · rfl
  · exact rentry_rset_ne s k' k _ h

theorem rincr_snd_rentry_ne (s : RStore) (k k' : String) (h : k' ≠ k) :
    rentry (rincr s k).2 k' = rentry s k' := by
  unfold rincr
  rcases hE : rentry s k with _ | e
  · exact rentry_rset_ne s k' k _ h
  · exact rentry_rset_ne s k' k _ h

theorem increment_failure_count_val (s : RStore) (p : String) :
    (increment_failure_count s p).1 = (rget s (failuresKey p)).getD 0 + 1 := by
  unfold increment_failure_count rincr rget
  rcases h : rentry s (failuresKey p) with _ | e <;> simp [h]

theorem increment_failure_rentry (s : RStore) (p : String) :
    rentry (increment_failure_count s p).2 (failuresKey p)
      = some ⟨(rget s (failuresKey p)).getD 0 + 1, some 300⟩ := by
  unfold increment_failure_count rincr rget
  rcases h : rentry s (failuresKey p) with _ | e <;>
    simp [h, rentry_rexpire_self, rentry_rset_self]

theorem increment_failure_rentry_ne (s : RStore) (p : String) (k : String)
    (h : k ≠ failuresKey p) :
    rentry (increment_failure_count s p).2 k = rentry s k := by
  unfold increment_failure_count
  rw [rentry_rexpire_ne _ _ _ _ h, rincr_snd_rentry_ne _ _ _ h]

theorem mark_failed_failures (cfg : RouterCfg) (s : RStore) (p : String) :
    rentry (mark_provider_failed cfg s p) (failuresKey p)
      = some ⟨(rget s (failuresKey p)).getD 0 + 1, some 300⟩ := by
  unfold mark_provider_failed blacklist_provider rsetex
  rw [rentry_rset_ne _ _ _ _ (failuresKey_ne_blacklistKey p p)]
  exact increment_failure_rentry s p

theorem mark_failed_blacklist (cfg : RouterCfg) (s : RStore) (p : String) :
    rentry (mark_provider_failed cfg s p) (blacklistKey p)
      = some ⟨1, some (min (cfg.backoff_base * 2 ^ ((rget s (failuresKey p)).getD 0))
          cfg.backoff_max)⟩ := by
  unfold mark_provider_failed blacklist_provider rsetex
  rw [rentry_rset_self, increment_failure_count_val]
  simp

theorem mark_failed_rentry_ne (cfg : RouterCfg) (s : RStore) (p : String)
    (k : String) (hf : k ≠ failuresKey p) (hb : k ≠ blacklistKey p) :
    rentry (mark_provider_failed cfg s p) k = rentry s k := by
  unfold mark_provider_failed blacklist_provider rsetex
  rw [rentry_rset_ne _ _ _ _ hb, increment_failure_rentry_ne _ _ _ hf]

theorem check_rate_limit_snd_rentry_ne (s : RStore) (identifier : String)
    (maxR : Int) (w : Nat) (k : String) (hk : k ≠ ratelimitKey identifier) :
    rentry (check_rate_limit s identifier maxR w).2 k = rentry s k := by
  unfold check_rate_limit rsetex
  dsimp only
  rcases hE : rget s (ratelimitKey identifier) with _ | c
  · exact rentry_rset_ne _ _ _ _ hk
  · dsimp only
    split
    · rfl
    · exact rincr_snd_rentry_ne _ _ _ hk

theorem check_rate_limit_eq_spec (s : RStore) (identifier : String)
    (maxR : Int) (w : Nat) :
    check_rate_limit s identifier maxR w
      = spec_fixed_window s (ratelimitKey identifier) maxR w := by
  unfold check_rate_limit spec_fixed_window rsetex rset
  dsimp only
  rcases hE : rget s (ratelimitKey identifier) with _ | c
  · rfl
  · dsimp only
    by_cases h : maxR ≤ (c : Int)
    · rw [if_pos h, if_neg (not_lt.mpr h)]
    · rw [if_neg h, if_pos (lt_of_not_ge h)]

theorem router_gate_snd (cfg : RouterCfg) (s : RStore) (p : Provider)
    (request_id : String) :
    (router_check_provider_rate_limit cfg s p request_id).2
      = (check_rate_limit s p.name
          (cfg.settings.get_provider_rate_limit p.name) 60).2 := by
  unfold router_check_provider_rate_limit check_provider_rate_limit
  dsimp only
  split <;> rfl

/-! ## String-prefix lemmas for the SSE classification -/

/-- A string cannot start with two prefixes whose head characters differ. -/
theorem startswith_head_ne (l pre pre' : String) {c d : Char} {t t' : List Char}
    (hpre : pre.data = c :: t) (hpre' : pre'.data = d :: t') (hcd : d ≠ c)
    (h : str_startswith l pre = true) : str_startswith l pre' = false := by
  unfold str_startswith at h ⊢
  rw [hpre] at h
  rw [hpre']
  rcases hd : l.data with _ | ⟨a, as⟩
  · rw [hd] at h
    exact absurd h (by simp)
  · rw [hd] at h
    rw [List.isPrefixOf_cons₂]
    rw [List.isPrefixOf_cons₂] at h
    have hca : c = a := beq_iff_eq.mp ((Bool.and_eq_true _ _).mp h).1
    subst hca
    have hdc : (d == c) = false := beq_eq_false_iff_ne.mpr hcd
    rw [hdc, Bool.false_and]

/-- A `:`-comment line is not a `data: ` line. -/
theorem comment_not_data (l : String) (h : str_startswith l ":" = true) :
    str_startswith l "data: " = false :=
  startswith_head_ne l ":" "data: " rfl rfl (by decide) h

/-- The empty line is not a `data: ` line. -/
theorem empty_not_data : str_startswith "" "data: " = false := rfl

/-! ## SSE parsing: the inner line loop matches the spec's per-line reading -/

theorem process_lines_eq_spec (parse : String → Option SseData)
    (lines : List String) :
    openrouter_process_lines parse lines = spec_sse_extract parse lines := by
  induction lines with
  | nil => rfl
  | cons line rest ih =>
    by_cases hempty : str_strip line = ""
    · have hsw : str_startswith (str_strip line) "data: " = false := by
        rw [hempty]
        decide
      have hdl : is_done_line line = false := by
        unfold is_done_line
        rw [hsw, Bool.false_and]
      have hcond : (decide (str_strip line = "") || str_startswith (str_strip line) ":") = true := by
        rw [decide_eq_true hempty, Bool.true_or]
      have hcontent : spec_line_content parse line = none := by
        unfold spec_line_content
        exact if_pos hcond
      rw [openrouter_process_lines, spec_sse_extract, if_pos hcond, hdl, hcontent]
      simp [ih]
    · by_cases hcomment : str_startswith (str_strip line) ":" = true
      · have hsw : str_startswith (str_strip line) "data: " = false :=
          comment_not_data _ hcomment
        have hdl : is_done_line line = false := by
          unfold is_done_line
          rw [hsw, Bool.false_and]
        have hcond : (decide (str_strip line = "") || str_startswith (str_strip line) ":") = true := by
          rw [hcomment, Bool.or_true]
        have hcontent : spec_line_content parse line = none := by
          unfold spec_line_content
          exact if_pos hcond
        rw [openrouter_process_lines, spec_sse_extract, if_pos hcond, hdl, hcontent]
        simp [ih]
      · have hco : str_startswith (str_strip line) ":" = false :=
          Bool.eq_false_iff.mpr hcomment
        have hcond : (decide (str_strip line = "") || str_startswith (str_strip line) ":") = false := by
          rw [decide_eq_false hempty, hco, Bool.or_self]
        have hcnot : ¬ ((decide (str_strip line = "") || str_startswith (str_strip line) ":") = true) := by
          rw [hcond]
          exact Bool.false_ne_true
        by_cases hdata : str_startswith (str_strip line) "data: " = true
        · by_cases hdone : str_drop (str_strip line) 6 = "[DONE]"
          · have hdl : is_done_line line = true := by
              unfold is_done_line
              rw [hdata, Bool.true_and, hdone]
              exact beq_self_eq_true _
            rw [openrouter_process_lines, spec_sse_extract, if_neg hcnot,
              if_pos hdata, if_pos hdone, hdl]
            simp
          · have hdl : is_done_line line = false := by
              unfold is_done_line
              rw [hdata, Bool.true_and]
              exact beq_eq_false_iff_ne.mpr hdone
            have hcontent : spec_line_content parse line
                = match parse (str_drop (str_strip line) 6) with
                  | none => none
                  | some data => sse_delta_content data := by
              unfold spec_line_content
              rw [if_neg hcnot, if_pos hdata]
            rw [openrouter_process_lines, spec_sse_extract, if_neg hcnot,
              if_pos hdata, if_neg hdone, hdl, hcontent]
            rcases parse (str_drop (str_strip line) 6) with _ | data
            · simpa using ih
            · rcases hc : sse_delta_content data with _ | c
              · simp [hc, ih]
              · simp [hc, ih]
        · have hda : str_startswith (str_strip line) "data: " = false :=
            Bool.eq_false_iff.mpr hdata
          have hdl : is_done_line line = false := by
            unfold is_done_line
            rw [hda, Bool.false_and]
          have hcontent : spec_line_content parse line = none := by
            unfold spec_line_content
            rw [if_neg hcnot, if_neg hdata]
          rw [openrouter_process_lines, spec_sse_extract, if_neg hcnot,
            if_neg hdata, hdl, hcontent]
          simp [ih]

/-! ## Orchestrator lemmas -/

theorem stream_response_err_iff (tmax : Nat) (evs : List (Nat × String))
    (ek : StreamEnd) (hek : ek ≠ .provErr (global_timeout_error tmax)) :
    (stream_response tmax evs ek).2 = some (global_timeout_error tmax)
      ↔ ∃ ev ∈ evs, tmax < ev.1 := by
  induction evs with
  | nil =>
    rcases ek with _ | pe
    · simp [stream_response]
    · have hpe : pe ≠ global_timeout_error tmax := by
        intro he
        exact hek (by rw [he])
      simp [stream_response, hpe]
  | cons ev rest ih =>
    rcases ev with ⟨t, c⟩
    by_cases h : tmax < t
    · simp only [stream_response, if_pos h]
      constructor
      · intro _
        exact ⟨(t, c), by simp, h⟩
      · intro _
        simp
    · simp only [stream_response, if_neg h]
      rw [ih]
      constructor
      · intro ⟨ev, hmem, hev⟩
        exact ⟨ev, by simp [hmem], hev⟩
      · intro ⟨ev, hmem, hev⟩
        rcases List.mem_cons.mp hmem with he | he
        · rw [he] at hev
          exact absurd hev h
        · exact ⟨ev, he, hev⟩

theorem stream_response_yielded (tmax : Nat) (evs : List (Nat × String))
    (ek : StreamEnd) :
    (stream_response tmax evs ek).1
      = (evs.takeWhile (fun ev => decide (ev.1 ≤ tmax))).map Prod.snd := by
  induction evs with
  | nil => rfl
  | cons ev rest ih =>
    rcases ev with ⟨t, c⟩
    by_cases h : tmax < t
    · have hp : (decide (t ≤ tmax)) = false := by
        simp
        exact h
      simp only [stream_response, if_pos h, List.takeWhile_cons, hp]
      rfl
    · have hp : (decide (t ≤ tmax)) = true := by
        simp
        exact Nat.le_of_not_lt h
      simp only [stream_response, if_neg h, List.takeWhile_cons, hp]
      simp [ih]

/-! ## HTTP status classification lemmas -/

/-- No element of the spec's closed code set starts with `H`, so the default
`HTTP_<status>` codes fall outside it. -/
theorem http_code_not_closed (x : String) :
    ("HTTP_" ++ x) ∉ closed_error_codes := by
  intro h
  have hh : ("HTTP_" ++ x).data.head? = some 'H' := by
    rcases x with ⟨d⟩
    rfl
  simp only [closed_error_codes, List.mem_cons, List.not_mem_nil, or_false] at h
  rcases h with h | h | h | h | h | h | h | h | h | h | h | h <;>
    (rw [h] at hh; exact absurd hh (by decide))

/-! ## Message-validation lemmas -/

theorem mkMessages_ok_of (msgs : List (String × String))
    (h : ∀ m ∈ msgs, validate_role m.1 = true) :
    mkMessages msgs = .ok (msgs.map fun m => (⟨m.1, m.2⟩ : Message)) := by
  induction msgs with
  | nil => rfl
  | cons m rest ih =>
    have hm : validate_role m.1 = true := h m (by simp)
    have hrest := ih (fun x hx => h x (by simp [hx]))
    rw [mkMessages, hrest]
    unfold mkMessage
    rw [if_pos hm]
    simp

theorem mkMessages_error_of (msgs : List (String × String))
    (h : ¬ ∀ m ∈ msgs, validate_role m.1 = true) :
    ∃ e, mkMessages msgs = .error e := by
  induction msgs with
  | nil => exact absurd (by simp) h
  | cons m rest ih =>
    by_cases hm : validate_role m.1 = true
    · have hrest : ¬ ∀ x ∈ rest, validate_role x.1 = true := by
        intro hall
        exact h (by
          intro x hx
          rcases List.mem_cons.mp hx with he | he
          · rw [he]
            exact hm
          · exact hall x he)
      rcases ih hrest with ⟨e, he⟩
      refine ⟨e, ?_⟩
      rw [mkMessages, he]
      unfold mkMessage
      rw [if_pos hm]
    · refine ⟨"El rol debe ser user, assistant o system", ?_⟩
      rw [mkMessages]
      unfold mkMessage
      rw [if_neg hm]

/-! ## Claim theorems -/

/-- Claim C9: `check_rate_limit` implements the fixed-window algorithm on
`ratelimit:{identifier}`: an absent key is created with value 1 and TTL =
window and the call allows with `max - 1` remaining; a count at or above the
maximum rejects with `(false, 0)` and no mutation; otherwise the key is
incremented and the call allows with `max - count - 1` remaining. -/
theorem claim_C9_check_rate_limit_fixed_window :
    ∀ (s : RStore) (identifier : String) (maxR : Int) (w : Nat),
    check_rate_limit s identifier maxR w
      = spec_fixed_window s (ratelimitKey identifier) maxR w :=
  fun s identifier maxR w => check_rate_limit_eq_spec s identifier maxR w

/-- Claim C3: the store operation `check_provider_rate_limit` (modelled from
the spec, being absent from the source) applies the fixed-window algorithm
keyed per provider; the request id affects neither the result nor the key;
and the Router's per-candidate gate evaluates the `(allowed, remaining)` pair
against the store: it passes exactly when the store's per-provider check
allows, and it threads the store the check returns. -/
theorem claim_C3_provider_rate_limit_gate :
    ∀ (s : RStore) (pname rid rid' : String) (maxR : Int) (w : Nat)
      (cfg : RouterCfg) (p : Provider),
    check_provider_rate_limit s pname rid maxR w
        = spec_fixed_window s (ratelimitKey pname) maxR w
    ∧ check_provider_rate_limit s pname rid maxR w
        = check_provider_rate_limit s pname rid' maxR w
    ∧ ((router_check_provider_rate_limit cfg s p rid).1 = none
        ↔ (check_provider_rate_limit s p.name rid
            (cfg.settings.get_provider_rate_limit p.name) 60).1.1 = true)
    ∧ (router_check_provider_rate_limit cfg s p rid).2
        = (check_provider_rate_limit s p.name rid
            (cfg.settings.get_provider_rate_limit p.name) 60).2
    ∧ router_check_provider_rate_limit cfg s p rid
        = router_check_provider_rate_limit cfg s p rid' := by
  intro s pname rid rid' maxR w cfg p
  refine ⟨check_rate_limit_eq_spec s pname maxR w, rfl, ?_, router_gate_snd cfg s p rid, rfl⟩
  unfold router_check_provider_rate_limit
  dsimp only
  by_cases hall : (check_provider_rate_limit s p.name rid
      (cfg.settings.get_provider_rate_limit p.name) 60).1.1 = true
  · rw [if_pos hall]
    simp [hall]
  · rw [if_neg hall]
    simp [hall]

theorem mark_failed_iter (cfg : RouterCfg) (p : String) (k : Nat) (hk : 1 ≤ k)
    (s : RStore) (h0 : rget s (failuresKey p) = none) :
    rentry ((fun t => mark_provider_failed cfg t p)^[k] s) (failuresKey p)
        = some ⟨k, some 300⟩
    ∧ rentry ((fun t => mark_provider_failed cfg t p)^[k] s) (blacklistKey p)
        = some ⟨1, some (min (cfg.backoff_base * 2 ^ (k - 1)) cfg.backoff_max)⟩ := by
  induction k, hk using Nat.le_induction with
  | base =>
    rw [Function.iterate_one]
    constructor
    · rw [mark_failed_failures, h0]
      rfl
    · rw [mark_failed_blacklist, h0]
      rfl
  | succ n hn ih =>
    obtain ⟨ihf, ihb⟩ := ih
    have hget : rget ((fun t => mark_provider_failed cfg t p)^[n] s) (failuresKey p)
        = some n := by
      rw [rget, ihf]
      rfl
    constructor
    · rw [Function.iterate_succ_apply', mark_failed_failures, hget]
      rfl
    · rw [Function.iterate_succ_apply', mark_failed_blacklist, hget]
      simp

/-- Claim C4: `_mark_provider_failed` increments `failures:{p}` to a new
count `n` and sets `blacklist:{p}` with TTL exactly
`min(backoff_base * 2^(n-1), backoff_max)`; hence `k` consecutive retriable
failures starting from an absent counter leave `failures:{p} = k` and
`blacklist:{p}` present with TTL `min(backoff_base * 2^(k-1), backoff_max)`. -/
theorem claim_C4_backoff (cfg : RouterCfg) (p : String) (k : Nat) (s : RStore)
    (hk : 1 ≤ k) (h0 : rget s (failuresKey p) = none) :
    (rget (mark_provider_failed cfg s p) (failuresKey p)
        = some ((increment_failure_count s p).1)
      ∧ rentry (mark_provider_failed cfg s p) (blacklistKey p)
        = some ⟨1, some (min
            (cfg.backoff_base * 2 ^ ((increment_failure_count s p).1 - 1))
            cfg.backoff_max)⟩)
    ∧ rentry ((fun t => mark_provider_failed cfg t p)^[k] s) (failuresKey p)
        = some ⟨k, some 300⟩
    ∧ rentry ((fun t => mark_provider_failed cfg t p)^[k] s) (blacklistKey p)
        = some ⟨1, some (min (cfg.backoff_base * 2 ^ (k - 1)) cfg.backoff_max)⟩ := by
  refine ⟨⟨?_, ?_⟩, (mark_failed_iter cfg p k hk s h0).1,
    (mark_failed_iter cfg p k hk s h0).2⟩
  · rw [rget, mark_failed_failures, increment_failure_count_val]
    rfl
  · rw [mark_failed_blacklist, increment_failure_count_val]
    simp

/-- Witness for C4 at `k = 3` from the empty store: the third consecutive
failure leaves a failure count of 3 and a blacklist TTL of
`min(5 * 2^2, 300) = 20` seconds. -/
theorem claim_C4_backoff_witness :
    1 ≤ 3 ∧ rget ([] : RStore) (failuresKey "groq") = none
    ∧ rentry ((fun t => mark_provider_failed cfg0 t "groq")^[3] [])
        (failuresKey "groq") = some ⟨3, some 300⟩
    ∧ rentry ((fun t => mark_provider_failed cfg0 t "groq")^[3] [])
        (blacklistKey "groq") = some ⟨1, some 20⟩ := by
  refine ⟨by decide, rfl, ?_, ?_⟩
  · exact (claim_C4_backoff cfg0 "groq" 3 [] (by decide) rfl).2.1
  · have h := (claim_C4_backoff cfg0 "groq" 3 [] (by decide) rfl).2.2
    rw [h]
    rfl

/-- Claim C10: a pre-commit non-retriable `ProviderError` makes both router
loops record the error as the last one and continue with the next candidate,
and the shared state for that provider is untouched: `failures:{p}` and
`blacklist:{p}` read the same after the attempt as before it. -/
theorem claim_C10_nonretriable_frame (cfg : RouterCfg) (rid : String)
    (p : Provider) (rest : List Provider) (s s1 : RStore)
    (last_error : Option ProviderError) (e : ProviderError)
    (hb : is_provider_blacklisted s p.name = false)
    (hg : router_check_provider_rate_limit cfg s p rid = (none, s1))
    (hgen : p.gen = .provErr e)
    (hstream : p.stream = .chunks [] (.provErr e))
    (hret : e.retriable = false) :
    choose_and_generate_loop cfg rid (p :: rest) s last_error
      = choose_and_generate_loop cfg rid rest s1 (some e)
    ∧ choose_and_stream_loop cfg rid (p :: rest) s last_error
      = prependEvents [.invoked p.name]
          (choose_and_stream_loop cfg rid rest s1 (some e))
    ∧ rentry s1 (failuresKey p.name) = rentry s (failuresKey p.name)
    ∧ rentry s1 (blacklistKey p.name) = rentry s (blacklistKey p.name) := by
  have hsnd : s1 = (check_rate_limit s p.name
      (cfg.settings.get_provider_rate_limit p.name) 60).2 := by
    have h2 := congrArg Prod.snd hg
    rw [router_gate_snd] at h2
    exact h2.symm
  refine ⟨?_, ?_, ?_, ?_⟩
  · rw [choose_and_generate_loop, hb]
    simp only [Bool.false_eq_true, if_false, hg, hgen, hret, ite_false]
  · rw [choose_and_stream_loop, hb]
    simp only [Bool.false_eq_true, if_false, hg, hstream, hret, ite_false]
  · rw [hsnd]
    exact check_rate_limit_snd_rentry_ne s p.name _ 60 _
      (failuresKey_ne_ratelimitKey p.name p.name)
  · rw [hsnd]
    exact check_rate_limit_snd_rentry_ne s p.name _ 60 _
      (blacklistKey_ne_ratelimitKey p.name p.name)

/-- Witness for C10 at a concrete provider, error and store. -/
theorem claim_C10_nonretriable_frame_witness :
    choose_and_generate_loop cfg0 "r1" [p_bad] [] none
      = choose_and_generate_loop cfg0 "r1" [] s_gate (some e_bad)
    ∧ choose_and_stream_loop cfg0 "r1" [p_bad] [] none
      = prependEvents [.invoked "groq"]
          (choose_and_stream_loop cfg0 "r1" [] s_gate (some e_bad))
    ∧ rentry s_gate (failuresKey "groq") = rentry [] (failuresKey "groq")
    ∧ rentry s_gate (blacklistKey "groq") = rentry [] (blacklistKey "groq") :=
  claim_C10_nonretriable_frame cfg0 "r1" p_bad [] [] s_gate none e_bad
    (by decide) (by decide) rfl rfl rfl

/-- Claim C1 (code bug): the spec pins a stream to the committed provider —
after the first chunk has been yielded a `ProviderError` must be terminal.
The code catches the post-commit error with the same handler as pre-commit
ones and falls through to the next candidate: with provider `groq` yielding
`"foo"` and then failing retriably, the caller additionally receives
`openrouter`'s chunks and the call ends as a success. -/
theorem claim_C1_post_commit_failover_eval :
    (choose_and_stream cfg0 [pA, pB] req0 "req-1" []).1
      = [.invoked "groq", .yielded "foo", .invoked "openrouter", .yielded "ok"]
    ∧ (choose_and_stream cfg0 [pA, pB] req0 "req-1" []).2.1 = .ok := by
  constructor
  · decide
  · decide

/-- Claim C2 (code bug): the Router never reads `request.provider` — the
outcome is literally independent of the request — so a request pinned to the
nonexistent provider `"noexiste"` is served by `groq` (both streaming and
unary) instead of failing with `INVALID_PROVIDER`, contradicting the spec
and the repository's own tests. -/
theorem claim_C2_pinned_provider_ignored_eval :
    (∀ r : ChatRequest, choose_and_stream cfg0 [pG] r "rid" []
        = choose_and_stream cfg0 [pG] req_ghost "rid" [])
    ∧ (∀ r : ChatRequest, choose_and_generate cfg0 [pG] r "rid" []
        = choose_and_generate cfg0 [pG] req_ghost "rid" [])
    ∧ (choose_and_stream cfg0 [pG] req_ghost "rid" []).2.1 = .ok
    ∧ (choose_and_stream cfg0 [pG] req_ghost "rid" []).1
      = [.invoked "groq", .yielded "chunk0", .yielded "chunk1", .yielded "chunk2"]
    ∧ (choose_and_generate cfg0 [pG] req_ghost "rid" []).1
      = .ok ⟨"Test response", "groq", none, []⟩ := by
  refine ⟨fun r => rfl, fun r => rfl, ?_, ?_, ?_⟩
  · decide
  · decide
  · decide

/-- Counterexample to claim C5: a stream whose only chunk arrives at elapsed
0 and which terminates successfully at elapsed 200 ends without
`GLOBAL_TIMEOUT` although the wall clock exceeded the 120-second deadline
before terminal success — the code only checks the clock when a chunk
arrives, never at end-of-stream. -/
theorem claim_C5_counterexample :
    (stream_response_tr 120 tr0).2 = none
    ∧ spec_exceeds_deadline 120 tr0.endTime
    ∧ ¬ ((stream_response_tr 120 tr0).2 = some (global_timeout_error 120)
        ↔ spec_exceeds_deadline 120 tr0.endTime) := by
  unfold spec_exceeds_deadline
  decide

/-- Claim C5 as amended: `GLOBAL_TIMEOUT` is raised for a unary call iff it
completes only after the deadline, and for a stream iff some chunk arrives
from the inner stream after the deadline; the check runs before each yield,
so exactly the chunks that arrived within the deadline are yielded.  A
stream that emits no chunk past the deadline ends without `GLOBAL_TIMEOUT`
even when its total duration exceeds it. -/
theorem claim_C5_global_timeout_amended (tmax : Nat) (tr : TimedStream)
    (t : Nat) (res : Except ProviderError ChatResponse)
    (hres : res ≠ .error (global_timeout_error tmax))
    (hek : tr.endKind ≠ .provErr (global_timeout_error tmax)) :
    (generate_response tmax t res = .error (global_timeout_error tmax)
        ↔ tmax < t)
    ∧ ((stream_response_tr tmax tr).2 = some (global_timeout_error tmax)
        ↔ ∃ ev ∈ tr.events, tmax < ev.1)
    ∧ (stream_response_tr tmax tr).1
      = (tr.events.takeWhile (fun ev => decide (ev.1 ≤ tmax))).map Prod.snd := by
  refine ⟨?_, stream_response_err_iff tmax tr.events tr.endKind hek,
    stream_response_yielded tmax tr.events tr.endKind⟩
  unfold generate_response
  by_cases h : tmax < t
  · simp [h]
  · simp [h, hres]

/-- Witness for the amended C5 at `tmax = 120` with a late unary completion
and a stream whose second chunk arrives at elapsed 130. -/
theorem claim_C5_global_timeout_amended_witness :
    (generate_response 120 130 (.ok ⟨"hi", "groq", none, []⟩)
        = .error (global_timeout_error 120) ↔ 120 < 130)
    ∧ ((stream_response_tr 120 tr1).2 = some (global_timeout_error 120)
        ↔ ∃ ev ∈ tr1.events, 120 < ev.1)
    ∧ (stream_response_tr 120 tr1).1
      = (tr1.events.takeWhile (fun ev => decide (ev.1 ≤ 120))).map Prod.snd :=
  claim_C5_global_timeout_amended 120 tr1 130 (.ok ⟨"hi", "groq", none, []⟩)
    (by simp) (by decide)

/-- Counterexample to claim C6: HTTP status 404 is mapped to code
`HTTP_404`, which is neither `UNKNOWN_ERROR` nor a member of the closed
error-code set. -/
theorem claim_C6_counterexample :
    (handle_http_error "openrouter" 404 "not found").code = "HTTP_404"
    ∧ (handle_http_error "openrouter" 404 "not found").code ∉ closed_error_codes
    ∧ (handle_http_error "openrouter" 404 "not found").code ≠ "UNKNOWN_ERROR" := by
  decide

/-- Claim C6 as amended: `_handle_http_error` maps 429 to retriable
`RATE_LIMIT`, any status ≥ 500 to retriable `SERVER_ERROR`, 408 to retriable
`TIMEOUT`, 401/403/400 to non-retriable `UNAUTHORIZED`/`FORBIDDEN`/
`BAD_REQUEST`, and every other status to the non-retriable code
`HTTP_<status>` — which lies outside the closed error-code set, so the
produced code is in the closed set exactly for the enumerated statuses. -/
theorem claim_C6_http_error_mapping_amended :
    ∀ (pname : String) (status : Nat) (msg : String),
    (handle_http_error pname status msg).provider = pname
    ∧ (handle_http_error pname status msg).message = msg
    ∧ ((handle_http_error pname status msg).code,
        (handle_http_error pname status msg).retriable)
      = (if status = 429 then ("RATE_LIMIT", true)
         else if 500 ≤ status then ("SERVER_ERROR", true)
         else if status = 408 then ("TIMEOUT", true)
         else if status = 401 then ("UNAUTHORIZED", false)
         else if status = 403 then ("FORBIDDEN", false)
         else if status = 400 then ("BAD_REQUEST", false)
         else ("HTTP_" ++ toString status, false))
    ∧ ((handle_http_error pname status msg).retriable = true
        ↔ status = 429 ∨ 500 ≤ status ∨ status = 408)
    ∧ ((handle_http_error pname status msg).code ∈ closed_error_codes
        ↔ status = 429 ∨ 500 ≤ status ∨ status = 408 ∨ status = 401
          ∨ status = 403 ∨ status = 400) := by
  intro pname status msg
  unfold handle_http_error
  dsimp only
  split_ifs with h1 h2 h3 h4 h5 h6
  · simp_all [closed_error_codes]
  · simp_all [closed_error_codes]
  · simp_all [closed_error_codes]
  · simp_all [closed_error_codes]
  · simp_all [closed_error_codes]
  · simp_all [closed_error_codes]
  · refine ⟨rfl, rfl, rfl, by simp [h1, h2, h3], ?_⟩
    constructor
    · intro hmem
      exact absurd hmem (http_code_not_closed (toString status))
    · intro hdisj
      rcases hdisj with h | h | h | h | h | h
      · exact absurd h h1
      · exact absurd h h2
      · exact absurd h h3
      · exact absurd h h4
      · exact absurd h h5
      · exact absurd h h6

/-- Counterexample to claim C7: a `[DONE]` payload only breaks the line loop
of its own network read; content arriving in a later network read is still
yielded, while the spec's flat-sequence reading yields nothing after
`[DONE]`. -/
theorem claim_C7_counterexample :
    openrouter_stream sample_parse [["data: [DONE]"], ["data: ok"]] = ["x"]
    ∧ spec_sse_extract sample_parse
        (List.flatten [["data: [DONE]"], ["data: ok"]]) = [] := by
  constructor
  · decide
  · decide

/-- Claim C7 as amended: the adapter yields, per network read, exactly the
spec's extraction — the non-empty `choices[0].delta.content` strings of the
well-formed `data: ` lines in order, blanks, `:`-comments, other lines and
malformed JSON skipped — with the `[DONE]` payload ending only the
remainder of its own network read. -/
theorem claim_C7_sse_parsing_amended (parse : String → Option SseData)
    (chunks : List (List String)) :
    openrouter_stream parse chunks
      = (chunks.map (fun c => spec_sse_extract parse c)).flatten := by
  induction chunks with
  | nil => rfl
  | cons c cs ih =>
    rw [openrouter_stream, process_lines_eq_spec, ih, List.map_cons,
      List.flatten_cons]

/-- Counterexample to claim C8: a request whose single message has empty
content is accepted at construction — the `content` field has no
non-emptiness constraint — although the spec's ingress predicate rejects
it. -/
theorem claim_C8_counterexample :
    (mkChatRequest [("user", "")] 512 0 false none none).isOk = true
    ∧ ¬ spec_ingress_accepts [("user", "")] 512 0 := by
  constructor
  · decide
  · unfold spec_ingress_accepts
    decide

/-- Claim C8 as amended: construction accepts exactly when the message list
is non-empty, every role is in the enumerated set, `max_tokens ∈ [1, 4096]`
and `temperature ∈ [0, 2]` — message content is not constrained. -/
theorem claim_C8_ingress_validation_amended (msgs : List (String × String))
    (mt : Int) (t : Rat) (st : Bool) (mo pr : Option String) :
    (mkChatRequest msgs mt t st mo pr).isOk = true
      ↔ msgs ≠ [] ∧ (∀ m ∈ msgs, validate_role m.1 = true)
        ∧ 1 ≤ mt ∧ mt ≤ 4096 ∧ 0 ≤ t ∧ t ≤ 2 := by
  unfold mkChatRequest
  by_cases hroles : ∀ m ∈ msgs, validate_role m.1 = true
  · rw [mkMessages_ok_of msgs hroles]
    dsimp only
    by_cases hmt : 1 ≤ mt ∧ mt ≤ 4096
    · rw [if_neg (not_not_intro hmt)]
      by_cases htemp : 0 ≤ t ∧ t ≤ 2
      · rw [if_neg (not_not_intro htemp)]
        unfold validate_messages
        by_cases hm : msgs = []
        · subst hm
          constructor
          · intro h
            exact Bool.noConfusion h
          · intro ⟨h1, _⟩
            exact absurd rfl h1
        · have hne : (msgs.map (fun m => (⟨m.1, m.2⟩ : Message))).isEmpty = false := by
            simp [hm]
          rw [hne]
          simp only [Bool.false_eq_true, if_false]
          constructor
          · intro _
            exact ⟨hm, hroles, hmt.1, hmt.2, htemp.1, htemp.2⟩
          · intro _
            rfl
      · rw [if_pos htemp]
        constructor
        · intro h
          exact Bool.noConfusion h
        · intro ⟨_, _, _, _, h5, h6⟩
          exact absurd ⟨h5, h6⟩ htemp
    · rw [if_pos hmt]
      constructor
      · intro h
        exact Bool.noConfusion h
      · intro ⟨_, _, h3, h4, _, _⟩
        exact absurd ⟨h3, h4⟩ hmt
  · rcases mkMessages_error_of msgs hroles with ⟨e, he⟩
    rw [he]
    constructor
    · intro h
      exact Bool.noConfusion h
    · intro ⟨_, h2, _⟩
      exact absurd h2 hroles

end ModelRouter
